import Mathlib

set_option linter.unusedVariables false
set_option linter.unnecessarySimpa false

/-!
Verification of the track matching and playlist synthesis engine of the
playlistor repository (`main/tasks.py`).  The two Celery tasks
`generate_spotify_playlist` and `generate_applemusic_playlist` are embedded
shallowly: external collaborators (parsers, search adapters, the batch
submitter, the result cache, the mapping store) become oracle fields of an
`Env` record, mutable process state becomes an explicit `World` record, and
each task becomes a pure function `Env → String → World → Outcome × World`.
-/

/-- A parsed source track, as produced by the external playlist parsers:
a source-service catalog id, a display name and an ordered artist list. -/
structure SourceTrack where
  id : String
  name : String
  artists : List String
deriving DecidableEq, Repr

/-- A row of the `Track` model (`main/models.py` via `tasks.py`): the
cross-service mapping persisted by `save_or_update_tracks`. -/
structure Track where
  name : String
  artists : String
  apple_music_id : String
  spotify_id : String
deriving DecidableEq, Repr

/-- The dictionary returned by `AppleMusicParser(url).extract_data()` or
`SpotifyParser(url).extract_data()`. -/
structure ParsedPlaylist where
  playlist_title : String
  playlist_creator : String
  playlist_artwork_url : Option String
  tracks : List SourceTrack
deriving DecidableEq, Repr

/-- A row of the `Playlist` model, written once per successful
apple-music-to-spotify conversion (`Playlist.objects.create`). -/
structure PlaylistRow where
  name : String
  artwork_url : Option String
  spotify_url : String
  applemusic_url : String
  creator : String
deriving DecidableEq, Repr

/-- One network call made by the batch submission step: creating the
destination playlist (with the items passed at creation time) or appending
a chunk of items to it. -/
inductive SubmitCall where
  | create (items : List String)
  | append (items : List String)
deriving DecidableEq, Repr

/-- The items carried by one batch-submission call. -/
def SubmitCall.items : SubmitCall → List String
  | .create xs => xs
  | .append xs => xs

/-- Whether a batch-submission call is an append call. -/
def SubmitCall.isAppend : SubmitCall → Bool
  | .create _ => false
  | .append _ => true

/-- The append calls among a sequence of batch-submission calls. -/
def appendCalls (cs : List SubmitCall) : List SubmitCall :=
  cs.filter SubmitCall.isAppend

/-- The playlist-creation calls among a sequence of batch-submission calls. -/
def createCalls (cs : List SubmitCall) : List SubmitCall :=
  cs.filter (fun c => !c.isAppend)

/-- The outcome of the batch submission step as observed by the task:
either every call succeeds, or the first failing call raises an HTTP error
with a status code (`requests.exceptions.HTTPError` in the apple-music
task, `SpotifyException` in the spotify task), or it raises some other
exception. -/
inductive SubmitOutcome where
  | success
  | httpError (status : Nat)
  | exn
deriving DecidableEq, Repr

/-- The dictionary returned by a task.  The cached short-circuit path of
`generate_spotify_playlist` returns a dictionary without the
`number_of_tracks` and `missed_tracks` keys, hence the `Option` fields. -/
structure TaskResult where
  playlist_url : Option String
  number_of_tracks : Option Nat
  missed_tracks : Option (List SourceTrack)
  source : String
  destination : String
deriving DecidableEq, Repr

/-- How one task invocation terminates: a returned result dictionary, a
Celery retry (`raise self.retry(...)`), or an uncaught exception. -/
inductive Outcome where
  | ok (r : TaskResult)
  | retry
  | fatal
deriving DecidableEq, Repr

/-- The state accumulated by the per-track matching loop: matched
destination ids (`track_uris` / `track_ids`), `tracks_to_save`,
`missed_tracks`, the progress reports issued so far, and the number of
catalog search calls made. -/
structure LoopState where
  matchedIds : List String
  tracksToSave : List Track
  missedTracks : List SourceTrack
  progress : List (Nat × Nat)
  searchCalls : Nat
deriving DecidableEq, Repr

/-- The external collaborators and configuration of one task invocation:
`settings.DEBUG`, the parsers, the two catalog search adapters (`none`
models an exception or an empty result list), the identifiers returned by
the destination service on playlist creation, the outcome of the batch
submission step, how many submission calls happen before a failing one,
and whether the mapping bulk write hits an `IntegrityError`. -/
structure Env where
  debug : Bool
  uid : String
  parseApple : String → ParsedPlaylist
  parseSpotify : String → ParsedPlaylist
  spSearch : String → Option String
  amSearch : String → Option String
  createdPlaylistId : String
  createdPlaylistUrl : String
  amCreatedPlaylistId : String
  spSubmitOutcome : SubmitOutcome
  amSubmitOutcome : SubmitOutcome
  spSubmitFailAt : Nat
  amSubmitFailAt : Nat
  saveConflicts : Bool

/-- The mutable state outside one task invocation: the django result cache
(most recent entry first), the process-wide playlist counter, the rows of
the track-mapping store written so far, the created-playlists log, the
number of search-adapter calls made, the progress reports issued, and the
batch-submission calls performed. -/
structure World where
  cache : List (String × String)
  counter : Nat
  savedTracks : List Track
  playlistLog : List PlaylistRow
  searchCalls : Nat
  progressReports : List (Nat × Nat)
  submitCalls : List SubmitCall
deriving DecidableEq, Repr

/-- Lookup in the result cache (`url in cache` / `cache.get(url)`); only
non-expired entries are modelled as present. -/
def cacheGet (c : List (String × String)) (k : String) : Option String :=
  (c.find? (fun p => p.1 == k)).map Prod.snd

/-- Write to the result cache (`cache.set(url, playlist_url, timeout=3600)`). -/
def cacheSet (c : List (String × String)) (k v : String) : List (String × String) :=
  (k, v) :: c

/-- Modelled from the spec: `strip_qs` lives in `main/utils.py`, which is
not under src/.  The spec (§3, §8, Glossary) describes it as stripping the
query string from a playlist URL, so that two URLs differing only by query
string map to the same canonical URL: everything from the first question
mark on is removed. -/
def strip_qs (url : String) : String :=
  String.mk (url.data.takeWhile (fun c => c != '?'))

/-- Modelled from the spec: `grouper` lives in `main/utils.py`, which is
not under src/.  The spec (§4.3, Glossary "Chunking") describes it as
splitting a list of items into consecutive sub-lists no longer than the
given maximum per API call. -/
def grouper (n : Nat) (xs : List α) : List (List α) :=
  if h : n = 0 then []
  else match xs with
    | [] => []
    | x :: rest => (x :: rest).take n :: grouper n ((x :: rest).drop n)
termination_by xs.length
decreasing_by
  simp [List.length_drop]
  omega

/-- The spotify search query (`tasks.py` line 71): the track name followed
by the artist list, truncated to the first two artists when there are more
than two. -/
def spotifyQuery (t : SourceTrack) : String :=
  t.name ++ " " ++ String.intercalate " "
    (if t.artists.length ≤ 2 then t.artists else t.artists.take 2)

/-- The apple-music search query (`tasks.py` line 152): the track name
followed by the first artist; `track.artists[0]` raises `IndexError` when
the artist list is empty, which the surrounding `except` turns into a
miss, modelled as `none`. -/
def appleQuery (t : SourceTrack) : Option String :=
  match t.artists with
  | [] => none
  | a :: _ => some (t.name ++ " " ++ a)

/-- One iteration body of the spotify matching loop (`tasks.py` lines
68-85): search with the query, and on success record the track uri and the
`Track` row to save; any exception or empty result is a miss.  The first
component counts catalog search calls (always one per track here). -/
def spotifyStep (search : String → Option String) (t : SourceTrack) :
    Nat × Option (String × Track) :=
  (1, match search (spotifyQuery t) with
      | some track_id =>
          some ("spotify:track:" ++ track_id,
            ⟨t.name, String.intercalate "," t.artists, t.id, track_id⟩)
      | none => none)

/-- One iteration body of the apple-music matching loop (`tasks.py` lines
149-165): build the query (failing on an empty artist list before any
search call), search, and on success record the song id and the `Track`
row; any exception or empty result is a miss. -/
def appleStep (search : String → Option String) (t : SourceTrack) :
    Nat × Option (String × Track) :=
  match appleQuery t with
  | none => (0, none)
  | some q =>
    (1, match search q with
        | some songId =>
            some (songId, ⟨t.name, String.intercalate "," t.artists, songId, t.id⟩)
        | none => none)

/-- One iteration of the matching loop at index `i` of `n`: apply the
per-track body, accumulate the outcome, and report progress `(i+1, n)` in
the `finally` clause regardless of the outcome. -/
def loopStep (f : SourceTrack → Nat × Option (String × Track)) (n i : Nat)
    (t : SourceTrack) (s : LoopState) : LoopState :=
  let s1 := { s with searchCalls := s.searchCalls + (f t).1 }
  let s2 := match (f t).2 with
    | some (destId, row) =>
        { s1 with matchedIds := s1.matchedIds ++ [destId],
                  tracksToSave := s1.tracksToSave ++ [row] }
    | none => { s1 with missedTracks := s1.missedTracks ++ [t] }
  { s2 with progress := s2.progress ++ [(i + 1, n)] }

/-- The matching loop (`for i, track in enumerate(tracks)`), starting at
index `i`. -/
def runLoop (f : SourceTrack → Nat × Option (String × Track)) (n : Nat) :
    Nat → List SourceTrack → LoopState → LoopState
  | _, [], s => s
  | i, t :: ts, s => runLoop f n (i + 1) ts (loopStep f n i t s)

/-- The empty loop state at the start of the matching loop. -/
def LoopState.init : LoopState := ⟨[], [], [], [], 0⟩

/-- The full matching loop of `generate_spotify_playlist` over a track
list. -/
def spotifyMatch (search : String → Option String) (tracks : List SourceTrack) :
    LoopState :=
  runLoop (spotifyStep search) tracks.length 0 tracks LoopState.init

/-- The full matching loop of `generate_applemusic_playlist` over a track
list. -/
def appleMatch (search : String → Option String) (tracks : List SourceTrack) :
    LoopState :=
  runLoop (appleStep search) tracks.length 0 tracks LoopState.init

/-- The batch-submission calls of `generate_spotify_playlist` (lines
88-100): one creation call that carries no items, then, when more than 100
uris were matched, one append call per 100-chunk, otherwise a single
append call with the whole list (also when it is empty). -/
def spotifySubmitCalls (track_uris : List String) : List SubmitCall :=
  SubmitCall.create [] ::
    (if track_uris.length > 100 then (grouper 100 track_uris).map SubmitCall.append
     else [SubmitCall.append track_uris])

/-- The batch-submission calls of `generate_applemusic_playlist` (lines
168-185): when more than 100 ids were matched, a creation call carrying
the first 100 followed by one append call per 100-chunk of the rest;
otherwise a single creation call carrying the whole list. -/
def appleSubmitCalls (track_ids : List String) : List SubmitCall :=
  if track_ids.length > 100 then
    SubmitCall.create (track_ids.take 100) ::
      (grouper 100 (track_ids.drop 100)).map SubmitCall.append
  else [SubmitCall.create track_ids]

/-- The inner helper `save_or_update_tracks`: a batch upsert of mapping
rows whose `IntegrityError` is swallowed, so on a conflict the world is
left as it was and control continues either way. -/
def save_or_update_tracks (conflicts : Bool) (tracks : List Track) (w : World) :
    World :=
  if conflicts then w else { w with savedTracks := w.savedTracks ++ tracks }

/-- The non-cached path of `generate_spotify_playlist` (lines 56-120):
parse, match every track, create the playlist and append the uris, log the
created playlist, save the mappings (when any), write the cache entry,
bump the counter and return the result dictionary.  Any error raised by
the submission calls is uncaught, hence fatal. -/
def generate_spotify_playlist_full (env : Env) (url : String) (w : World) :
    Outcome × World :=
  let data := env.parseApple url
  let playlist_title := data.playlist_title
  let tracks := data.tracks
  let creator := data.playlist_creator
  let artwork_url := data.playlist_artwork_url
  let n := tracks.length
  let st := spotifyMatch env.spSearch tracks
  let w1 := { w with searchCalls := w.searchCalls + st.searchCalls,
                     progressReports := w.progressReports ++ st.progress }
  let calls := spotifySubmitCalls st.matchedIds
  match env.spSubmitOutcome with
  | .success =>
    let playlist_url := env.createdPlaylistUrl
    let w2 := { w1 with submitCalls := w1.submitCalls ++ calls }
    let w3 := { w2 with playlistLog := w2.playlistLog ++
                  [⟨playlist_title, artwork_url, playlist_url, url, creator⟩] }
    let w4 := if st.tracksToSave.length > 0 then
                save_or_update_tracks env.saveConflicts st.tracksToSave w3
              else w3
    let w5 := { w4 with cache := cacheSet w4.cache url playlist_url }
    let w6 := { w5 with counter := w5.counter + 1 }
    (.ok ⟨some playlist_url, some n, some st.missedTracks,
          "apple-music", "spotify"⟩, w6)
  | _ =>
    (.fatal, { w1 with submitCalls := w1.submitCalls ++ calls.take env.spSubmitFailAt })

/-- The task `generate_spotify_playlist` (lines 36-120): canonicalize the
url, and outside DEBUG mode return the cached result dictionary when a
non-expired cache entry exists; otherwise run the full conversion. -/
def generate_spotify_playlist (env : Env) (url0 : String) (w : World) :
    Outcome × World :=
  let url := strip_qs url0
  match (if env.debug then none else cacheGet w.cache url) with
  | some v =>
      (.ok ⟨some v, none, none, "apple-music", "spotify"⟩, w)
  | none => generate_spotify_playlist_full env url w

/-- The task `generate_applemusic_playlist` (lines 124-205): canonicalize
the url, parse, match every track, submit in batches inside a
`try/except requests.exceptions.HTTPError` where a status of 500 or more
saves the mappings (when any) and retries while any other HTTP status is
re-raised; other exceptions propagate uncaught.  On success bump the
counter, save the mappings (when any) and return the result dictionary
with a `None` playlist url.  There is no cache read or write. -/
def generate_applemusic_playlist (env : Env) (url0 : String) (w : World) :
    Outcome × World :=
  let url := strip_qs url0
  let data := env.parseSpotify url
  let tracks := data.tracks
  let playlist_title := if data.playlist_title = "" then "Untitled"
                        else data.playlist_title
  let n := tracks.length
  let st := appleMatch env.amSearch tracks
  let w1 := { w with searchCalls := w.searchCalls + st.searchCalls,
                     progressReports := w.progressReports ++ st.progress }
  let calls := appleSubmitCalls st.matchedIds
  match env.amSubmitOutcome with
  | .success =>
    let w2 := { w1 with submitCalls := w1.submitCalls ++ calls }
    let w3 := { w2 with counter := w2.counter + 1 }
    let w4 := if st.tracksToSave.length > 0 then
                save_or_update_tracks env.saveConflicts st.tracksToSave w3
              else w3
    (.ok ⟨none, some n, some st.missedTracks, "spotify", "apple-music"⟩, w4)
  | .httpError status =>
    let w2 := { w1 with submitCalls := w1.submitCalls ++ calls.take env.amSubmitFailAt }
    if 500 ≤ status then
      let w3 := if st.tracksToSave.length > 0 then
                  save_or_update_tracks env.saveConflicts st.tracksToSave w2
                else w2
      (.retry, w3)
    else (.fatal, w2)
  | .exn =>
    (.fatal, { w1 with submitCalls := w1.submitCalls ++ calls.take env.amSubmitFailAt })

/-! Characterization lemmas for the matching loop. -/

theorem runLoop_matchedIds (f : SourceTrack → Nat × Option (String × Track)) (n : Nat)
    (ts : List SourceTrack) : ∀ (i : Nat) (s : LoopState),
    (runLoop f n i ts s).matchedIds =
      s.matchedIds ++ ts.filterMap (fun t => ((f t).2).map Prod.fst) := by
  induction ts with
  | nil => intro i s; simp [runLoop]
  | cons t ts ih =>
    intro i s
    rw [runLoop, ih]
    cases h : (f t).2 with
    | none => simp [loopStep, h]
    | some p => simp [loopStep, h]

theorem runLoop_tracksToSave (f : SourceTrack → Nat × Option (String × Track)) (n : Nat)
    (ts : List SourceTrack) : ∀ (i : Nat) (s : LoopState),
    (runLoop f n i ts s).tracksToSave =
      s.tracksToSave ++ ts.filterMap (fun t => ((f t).2).map Prod.snd) := by
  induction ts with
  | nil => intro i s; simp [runLoop]
  | cons t ts ih =>
    intro i s
    rw [runLoop, ih]
    cases h : (f t).2 with
    | none => simp [loopStep, h]
    | some p => simp [loopStep, h]

theorem runLoop_missedTracks (f : SourceTrack → Nat × Option (String × Track)) (n : Nat)
    (ts : List SourceTrack) : ∀ (i : Nat) (s : LoopState),
    (runLoop f n i ts s).missedTracks =
      s.missedTracks ++ ts.filter (fun t => ((f t).2).isNone) := by
  induction ts with
  | nil => intro i s; simp [runLoop]
  | cons t ts ih =>
    intro i s
    rw [runLoop, ih]
    cases h : (f t).2 with
    | none => simp [loopStep, h]
    | some p => simp [loopStep, h]

theorem runLoop_progress (f : SourceTrack → Nat × Option (String × Track)) (n : Nat)
    (ts : List SourceTrack) : ∀ (i : Nat) (s : LoopState),
    (runLoop f n i ts s).progress =
      s.progress ++ (List.range' (i + 1) ts.length).map (fun k => (k, n)) := by
  induction ts with
  | nil => intro i s; simp [runLoop]
  | cons t ts ih =>
    intro i s
    rw [runLoop, ih]
    cases h : (f t).2 with
    | none => simp [loopStep, h, List.range'_succ]
    | some p => simp [loopStep, h, List.range'_succ]

theorem runLoop_searchCalls (f : SourceTrack → Nat × Option (String × Track)) (n : Nat)
    (ts : List SourceTrack) : ∀ (i : Nat) (s : LoopState),
    (runLoop f n i ts s).searchCalls =
      s.searchCalls + (ts.map (fun t => (f t).1)).sum := by
  induction ts with
  | nil => intro i s; simp [runLoop]
  | cons t ts ih =>
    intro i s
    rw [runLoop, ih]
    cases h : (f t).2 with
    | none => simp [loopStep, h]; omega
    | some p => simp [loopStep, h]; omega

/-! Lemmas about the spec-modelled chunking helper. -/

theorem grouper_length (n : Nat) (hn : 0 < n) (xs : List α) :
    (grouper n xs).length = (xs.length + n - 1) / n := by
  induction xs using grouper.induct n with
  | case1 => omega
  | case2 h =>
    rw [grouper]
    simp only [List.length_nil, dif_neg (by omega : ¬ n = 0)]
    exact (Nat.div_eq_of_lt (by omega)).symm
  | case3 h x rest ih =>
    rw [grouper]
    simp only [dif_neg (by omega : ¬ n = 0)]
    simp only [List.length_cons, List.length_drop] at ih ⊢
    rw [ih]
    have e2 : rest.length + 1 + n - 1 = rest.length + n := by omega
    rw [e2, Nat.add_div_right _ hn]
    congr 1
    rcases Nat.lt_or_ge n (rest.length + 1) with hlt | hge
    · congr 1
      omega
    · rw [Nat.div_eq_of_lt (by omega), Nat.div_eq_of_lt (by omega)]

theorem grouper_chunk_le (n : Nat) (xs : List α) :
    ∀ c ∈ grouper n xs, c.length ≤ n := by
  induction xs using grouper.induct n with
  | case1 xs =>
    intro c hc
    rw [grouper.eq_def] at hc
    simp_all
  | case2 h =>
    intro c hc
    rw [grouper.eq_def] at hc
    simp [h] at hc
  | case3 h x rest ih =>
    intro c hc
    rw [grouper.eq_def] at hc
    simp only [dif_neg h, List.mem_cons] at hc
    rcases hc with rfl | hc
    · simp
    · exact ih c hc

theorem grouper_nil (n : Nat) : grouper n ([] : List α) = [] := by
  rw [grouper.eq_def]
  split <;> rfl

theorem grouper_join (n : Nat) (hn : 0 < n) (xs : List α) :
    (grouper n xs).flatten = xs := by
  induction xs using grouper.induct n with
  | case1 => omega
  | case2 h =>
    rw [grouper]
    simp [dif_neg (by omega : ¬ n = 0)]
  | case3 h x rest ih =>
    rw [grouper]
    simp only [dif_neg (by omega : ¬ n = 0), List.flatten_cons]
    rw [ih]
    exact List.take_append_drop n (x :: rest)

/-! Helper lemmas for partitioning the loop outcomes. -/

theorem filterMap_some_add_filter_none (f : SourceTrack → Nat × Option (String × Track))
    (g : String × Track → β) (ts : List SourceTrack) :
    (ts.filterMap (fun t => ((f t).2).map g)).length
      + (ts.filter (fun t => ((f t).2).isNone)).length = ts.length := by
  induction ts with
  | nil => simp
  | cons t ts ih =>
    cases h : (f t).2 <;> simp [h, List.filter_cons] <;> omega

theorem filterMap_map_length_eq (f : SourceTrack → Nat × Option (String × Track))
    (g : String × Track → β) (g2 : String × Track → γ) (ts : List SourceTrack) :
    (ts.filterMap (fun t => ((f t).2).map g)).length
      = (ts.filterMap (fun t => ((f t).2).map g2)).length := by
  induction ts with
  | nil => simp
  | cons t ts ih =>
    cases h : (f t).2 <;> simp [h, ih]

/-- C1: in either conversion direction, each source track of the matching
loop produces exactly one outcome — it contributes one destination track
id together with one mapping-row candidate, or it is appended to
`missed_tracks` — so that the number of matched ids plus the length of
`missed_tracks` equals the number `n` of source tracks, and
`missed_tracks` is the in-order sublist of the input consisting of exactly
the tracks whose search yielded nothing. -/
theorem C1_match_partition (search : String → Option String)
    (tracks : List SourceTrack) :
    ((spotifyMatch search tracks).matchedIds.length
        + (spotifyMatch search tracks).missedTracks.length = tracks.length
      ∧ (spotifyMatch search tracks).tracksToSave.length
          = (spotifyMatch search tracks).matchedIds.length
      ∧ (spotifyMatch search tracks).missedTracks
          = tracks.filter (fun t => ((spotifyStep search t).2).isNone)
      ∧ (spotifyMatch search tracks).missedTracks.Sublist tracks)
    ∧ ((appleMatch search tracks).matchedIds.length
        + (appleMatch search tracks).missedTracks.length = tracks.length
      ∧ (appleMatch search tracks).tracksToSave.length
          = (appleMatch search tracks).matchedIds.length
      ∧ (appleMatch search tracks).missedTracks
          = tracks.filter (fun t => ((appleStep search t).2).isNone)
      ∧ (appleMatch search tracks).missedTracks.Sublist tracks) := by
  constructor
  · refine ⟨?_, ?_, ?_, ?_⟩
    · rw [spotifyMatch, runLoop_matchedIds, runLoop_missedTracks]
      simpa [LoopState.init] using
        filterMap_some_add_filter_none (spotifyStep search) Prod.fst tracks
    · rw [spotifyMatch, runLoop_matchedIds, runLoop_tracksToSave]
      simpa [LoopState.init] using
        filterMap_map_length_eq (spotifyStep search) Prod.snd Prod.fst tracks
    · rw [spotifyMatch, runLoop_missedTracks]
      simp [LoopState.init]
    · rw [spotifyMatch, runLoop_missedTracks]
      simpa [LoopState.init] using List.filter_sublist tracks
  · refine ⟨?_, ?_, ?_, ?_⟩
    · rw [appleMatch, runLoop_matchedIds, runLoop_missedTracks]
      simpa [LoopState.init] using
        filterMap_some_add_filter_none (appleStep search) Prod.fst tracks
    · rw [appleMatch, runLoop_matchedIds, runLoop_tracksToSave]
      simpa [LoopState.init] using
        filterMap_map_length_eq (appleStep search) Prod.snd Prod.fst tracks
    · rw [appleMatch, runLoop_missedTracks]
      simp [LoopState.init]
    · rw [appleMatch, runLoop_missedTracks]
      simpa [LoopState.init] using List.filter_sublist tracks

/-- C7: the search query of the apple-music-to-spotify direction is the
track name followed by at most the first two artists, and the search query
of the spotify-to-apple-music direction is the track name followed by
exactly the first artist whenever the artist list is non-empty. -/
theorem C7_query_bounded :
    (∀ t : SourceTrack,
        spotifyQuery t = t.name ++ " " ++ String.intercalate " " (t.artists.take 2))
    ∧ (∀ (t : SourceTrack) (a : String) (rest : List String),
        t.artists = a :: rest → appleQuery t = some (t.name ++ " " ++ a)) := by
  constructor
  · intro t
    rw [spotifyQuery]
    rcases le_or_lt t.artists.length 2 with h | h
    · rw [if_pos h, List.take_of_length_le h]
    · rw [if_neg (by omega)]
  · intro t a rest h
    rw [appleQuery, h]

/-- Witness for C7 at the spec §8 example tracks. -/
theorem C7_query_bounded_witness :
    spotifyQuery ⟨"i1", "Song A", ["Artist1", "Artist2", "Artist3"]⟩
        = "Song A" ++ " " ++
            String.intercalate " " (["Artist1", "Artist2", "Artist3"].take 2)
      ∧ appleQuery ⟨"i2", "Song B", ["Artist4"]⟩
        = some ("Song B" ++ " " ++ "Artist4") :=
  ⟨C7_query_bounded.1 ⟨"i1", "Song A", ["Artist1", "Artist2", "Artist3"]⟩,
   C7_query_bounded.2 ⟨"i2", "Song B", ["Artist4"]⟩ "Artist4" [] rfl⟩

/-- Projection fact: the mapping write never touches the progress
reports. -/
theorem save_or_update_tracks_progressReports (b : Bool) (ts : List Track)
    (w : World) :
    (save_or_update_tracks b ts w).progressReports = w.progressReports := by
  rw [save_or_update_tracks]
  split <;> rfl

/-- C8: once a conversion reaches the matching loop it reports progress
`(i+1, n)` exactly once per track, in index order, regardless of whether
each track matched or missed — the report sits in a `finally` clause — in
both conversion directions, whatever the submission outcome. -/
theorem C8_progress_once_per_track (search : String → Option String)
    (tracks : List SourceTrack) (env : Env) (url : String) (w : World) :
    (spotifyMatch search tracks).progress
        = (List.range tracks.length).map (fun i => (i + 1, tracks.length))
    ∧ (appleMatch search tracks).progress
        = (List.range tracks.length).map (fun i => (i + 1, tracks.length))
    ∧ (generate_spotify_playlist_full env url w).2.progressReports
        = w.progressReports
            ++ (List.range (env.parseApple url).tracks.length).map
                (fun i => (i + 1, (env.parseApple url).tracks.length))
    ∧ (generate_applemusic_playlist env url w).2.progressReports
        = w.progressReports
            ++ (List.range (env.parseSpotify (strip_qs url)).tracks.length).map
                (fun i => (i + 1, (env.parseSpotify (strip_qs url)).tracks.length)) := by
  have hsp : ∀ (ts : List SourceTrack),
      (spotifyMatch search ts).progress
        = (List.range ts.length).map (fun i => (i + 1, ts.length)) := by
    intro ts
    rw [spotifyMatch, runLoop_progress]
    simp [LoopState.init, List.range'_eq_map_range, Nat.add_comm]
  have ham : ∀ (sr : String → Option String) (ts : List SourceTrack),
      (appleMatch sr ts).progress
        = (List.range ts.length).map (fun i => (i + 1, ts.length)) := by
    intro sr ts
    rw [appleMatch, runLoop_progress]
    simp [LoopState.init, List.range'_eq_map_range, Nat.add_comm]
  refine ⟨hsp tracks, ham search tracks, ?_, ?_⟩
  · rw [generate_spotify_playlist_full]
    cases hs : env.spSubmitOutcome with
    | success =>
      by_cases hlen : (spotifyMatch env.spSearch
          (env.parseApple url).tracks).tracksToSave.length > 0
      · simp only [if_pos hlen, save_or_update_tracks_progressReports]
        rw [spotifyMatch, runLoop_progress]
        simp [LoopState.init, List.range'_eq_map_range, Nat.add_comm]
      · simp only [if_neg hlen]
        rw [spotifyMatch, runLoop_progress]
        simp [LoopState.init, List.range'_eq_map_range, Nat.add_comm]
    | httpError s =>
      simp only []
      rw [spotifyMatch, runLoop_progress]
      simp [LoopState.init, List.range'_eq_map_range, Nat.add_comm]
    | exn =>
      simp only []
      rw [spotifyMatch, runLoop_progress]
      simp [LoopState.init, List.range'_eq_map_range, Nat.add_comm]
  · rw [generate_applemusic_playlist]
    cases hs : env.amSubmitOutcome with
    | success =>
      by_cases hlen : (appleMatch env.amSearch
          (env.parseSpotify (strip_qs url)).tracks).tracksToSave.length > 0
      · simp only [if_pos hlen, save_or_update_tracks_progressReports]
        rw [appleMatch, runLoop_progress]
        simp [LoopState.init, List.range'_eq_map_range, Nat.add_comm]
      · simp only [if_neg hlen]
        rw [appleMatch, runLoop_progress]
        simp [LoopState.init, List.range'_eq_map_range, Nat.add_comm]
    | httpError s =>
      by_cases h5 : 500 ≤ s
      · by_cases hlen : (appleMatch env.amSearch
            (env.parseSpotify (strip_qs url)).tracks).tracksToSave.length > 0
        · simp only [if_pos h5, if_pos hlen, save_or_update_tracks_progressReports]
          rw [appleMatch, runLoop_progress]
          simp [LoopState.init, List.range'_eq_map_range, Nat.add_comm]
        · simp only [if_pos h5, if_neg hlen]
          rw [appleMatch, runLoop_progress]
          simp [LoopState.init, List.range'_eq_map_range, Nat.add_comm]
      · simp only [if_neg h5]
        rw [appleMatch, runLoop_progress]
        simp [LoopState.init, List.range'_eq_map_range, Nat.add_comm]
    | exn =>
      simp only []
      rw [appleMatch, runLoop_progress]
      simp [LoopState.init, List.range'_eq_map_range, Nat.add_comm]

theorem appendCalls_cons_create (xs : List String) (cs : List SubmitCall) :
    appendCalls (SubmitCall.create xs :: cs) = appendCalls cs := by
  simp [appendCalls, List.filter_cons, SubmitCall.isAppend]

theorem appendCalls_map_append (cs : List (List String)) :
    appendCalls (cs.map SubmitCall.append) = cs.map SubmitCall.append :=
  List.filter_eq_self.mpr (by
    intro a ha
    obtain ⟨c, -, rfl⟩ := List.mem_map.mp ha
    rfl)

theorem createCalls_cons_create (xs : List String) (cs : List SubmitCall) :
    createCalls (SubmitCall.create xs :: cs)
      = SubmitCall.create xs :: createCalls cs := by
  simp [createCalls, List.filter_cons, SubmitCall.isAppend]

theorem createCalls_map_append (cs : List (List String)) :
    createCalls (cs.map SubmitCall.append) = [] := by
  simp only [createCalls]
  rw [List.filter_eq_nil_iff]
  intro a ha
  obtain ⟨c, -, rfl⟩ := List.mem_map.mp ha
  simp [SubmitCall.isAppend]

theorem map_items_map_append (cs : List (List String)) :
    (cs.map SubmitCall.append).map SubmitCall.items = cs := by
  induction cs with
  | nil => rfl
  | cons c cs ih => simp [SubmitCall.items, ih]

/-- C2, amended: in the spotify-to-apple-music direction the claim holds
as stated with B = 100 — the creation call carries exactly the first
`min(L, B)` matched items and the `ceil(max(0, L-B)/B)` append calls carry
exactly the 100-chunks of the rest — but in the apple-music-to-spotify
direction the creation call carries no items and the append calls carry
the 100-chunks of the whole matched list when `L > B`, otherwise there is
exactly one append call carrying all `L` matched items (even when
`L = 0`); in both directions no call carries more than B items and the
submitted items concatenate back to the full matched list in order. -/
theorem C2_batch_chunking (ids uris : List String) :
    ((createCalls (appleSubmitCalls ids)).map (fun c => c.items.length)
        = [min ids.length 100]
      ∧ (appendCalls (appleSubmitCalls ids)).length = (ids.length - 100 + 99) / 100
      ∧ (∀ c ∈ appleSubmitCalls ids, c.items.length ≤ 100)
      ∧ (createCalls (appleSubmitCalls ids)).map SubmitCall.items = [ids.take 100]
      ∧ (appendCalls (appleSubmitCalls ids)).map SubmitCall.items
          = grouper 100 (ids.drop 100)
      ∧ ids.take 100
          ++ ((appendCalls (appleSubmitCalls ids)).map SubmitCall.items).flatten = ids)
    ∧ ((createCalls (spotifySubmitCalls uris)).map (fun c => c.items.length) = [0]
      ∧ (appendCalls (spotifySubmitCalls uris)).length
          = (if uris.length > 100 then (uris.length + 99) / 100 else 1)
      ∧ (∀ c ∈ spotifySubmitCalls uris, c.items.length ≤ 100)
      ∧ (appendCalls (spotifySubmitCalls uris)).map SubmitCall.items
          = (if uris.length > 100 then grouper 100 uris else [uris])
      ∧ ((appendCalls (spotifySubmitCalls uris)).map SubmitCall.items).flatten
          = uris) := by
  constructor
  · by_cases h : ids.length > 100
    · have hA5 : (appendCalls (appleSubmitCalls ids)).map SubmitCall.items
          = grouper 100 (ids.drop 100) := by
        rw [appleSubmitCalls, if_pos h, appendCalls_cons_create,
            appendCalls_map_append, map_items_map_append]
      refine ⟨?_, ?_, ?_, ?_, hA5, ?_⟩
      · rw [appleSubmitCalls, if_pos h, createCalls_cons_create,
            createCalls_map_append]
        simp [SubmitCall.items]
        omega
      · rw [appleSubmitCalls, if_pos h, appendCalls_cons_create,
            appendCalls_map_append, List.length_map,
            grouper_length 100 (by norm_num)]
        simp
      · intro c hc
        simp only [appleSubmitCalls, if_pos h, List.mem_cons, List.mem_map] at hc
        rcases hc with rfl | ⟨chunk, hchunk, rfl⟩
        · simp [SubmitCall.items]
        · simpa [SubmitCall.items] using grouper_chunk_le 100 _ chunk hchunk
      · rw [appleSubmitCalls, if_pos h, createCalls_cons_create,
            createCalls_map_append]
        simp [SubmitCall.items]
      · rw [hA5, grouper_join 100 (by norm_num)]
        exact List.take_append_drop 100 ids
    · have hA5 : (appendCalls (appleSubmitCalls ids)).map SubmitCall.items
          = grouper 100 (ids.drop 100) := by
        rw [appleSubmitCalls, if_neg h, List.drop_eq_nil_of_le (by omega),
            grouper_nil]
        simp [appendCalls, List.filter_cons, SubmitCall.isAppend]
      refine ⟨?_, ?_, ?_, ?_, hA5, ?_⟩
      · rw [appleSubmitCalls, if_neg h]
        simp [createCalls, List.filter_cons, SubmitCall.isAppend, SubmitCall.items]
        omega
      · rw [appleSubmitCalls, if_neg h]
        simp [appendCalls, List.filter_cons, SubmitCall.isAppend]
        omega
      · intro c hc
        simp only [appleSubmitCalls, if_neg h, List.mem_singleton] at hc
        subst hc
        simp [SubmitCall.items]
        omega
      · rw [appleSubmitCalls, if_neg h]
        simp [createCalls, List.filter_cons, SubmitCall.isAppend,
              SubmitCall.items,
              List.take_of_length_le (by omega : ids.length ≤ 100)]
      · rw [hA5, List.drop_eq_nil_of_le (by omega), grouper_nil]
        simp [List.take_of_length_le (by omega : ids.length ≤ 100)]
  · by_cases h : uris.length > 100
    · have hS4 : (appendCalls (spotifySubmitCalls uris)).map SubmitCall.items
          = grouper 100 uris := by
        rw [spotifySubmitCalls, if_pos h, appendCalls_cons_create,
            appendCalls_map_append, map_items_map_append]
      refine ⟨?_, ?_, ?_, ?_, ?_⟩
      · rw [spotifySubmitCalls, if_pos h, createCalls_cons_create,
            createCalls_map_append]
        simp [SubmitCall.items]
      · rw [spotifySubmitCalls, if_pos h, appendCalls_cons_create,
            appendCalls_map_append, List.length_map,
            grouper_length 100 (by norm_num), if_pos h]
        congr 1
      · intro c hc
        simp only [spotifySubmitCalls, if_pos h, List.mem_cons, List.mem_map] at hc
        rcases hc with rfl | ⟨chunk, hchunk, rfl⟩
        · simp [SubmitCall.items]
        · simpa [SubmitCall.items] using grouper_chunk_le 100 _ chunk hchunk
      · rw [if_pos h]
        exact hS4
      · rw [hS4, grouper_join 100 (by norm_num)]
    · refine ⟨?_, ?_, ?_, ?_, ?_⟩
      · rw [spotifySubmitCalls, if_neg h]
        simp [createCalls, List.filter_cons, SubmitCall.isAppend, SubmitCall.items]
      · rw [spotifySubmitCalls, if_neg h, appendCalls_cons_create, if_neg h]
        simp [appendCalls, List.filter_cons, SubmitCall.isAppend]
      · intro c hc
        simp only [spotifySubmitCalls, if_neg h, List.mem_cons,
                   List.mem_singleton, List.not_mem_nil, or_false] at hc
        rcases hc with rfl | rfl
        · simp [SubmitCall.items]
        · simp [SubmitCall.items]
          omega
      · rw [spotifySubmitCalls, if_neg h, appendCalls_cons_create, if_neg h]
        simp [appendCalls, List.filter_cons, SubmitCall.isAppend, SubmitCall.items]
      · rw [spotifySubmitCalls, if_neg h, appendCalls_cons_create]
        simp [appendCalls, List.filter_cons, SubmitCall.isAppend, SubmitCall.items]

/-- Counterexample to C2 as stated: with one matched uri in the
apple-music-to-spotify direction the claim predicts zero append calls and
a creation call carrying `min(1, 100) = 1` item, but the code issues one
append call and a creation call carrying no items. -/
theorem C2_counterexample :
    ¬ ((appendCalls (spotifySubmitCalls ["spotify:track:a"])).length = 0
       ∧ (createCalls (spotifySubmitCalls ["spotify:track:a"])).map
            (fun c => c.items.length) = [1]) := by
  decide

/-- C10: in the spotify-to-apple-music direction a source track with an
empty artist list is necessarily missed — query construction fails before
any search call, the step yields no destination id and no mapping row, and
the track lands in `missed_tracks` — while in the opposite direction an
empty artist list does not by itself force a miss, witnessed by a search
oracle under which such a track is matched. -/
theorem C10_empty_artists_policy (search : String → Option String)
    (t : SourceTrack) (h : t.artists = []) :
    appleStep search t = (0, none)
    ∧ (∀ tracks : List SourceTrack,
        t ∈ tracks → t ∈ (appleMatch search tracks).missedTracks)
    ∧ (spotifyMatch (fun _ => some "x") [⟨"id0", "nm0", []⟩]).matchedIds
        = ["spotify:track:x"]
    ∧ (spotifyMatch (fun _ => some "x") [⟨"id0", "nm0", []⟩]).missedTracks = [] := by
  refine ⟨?_, ?_, rfl, rfl⟩
  · rw [appleStep, appleQuery, h]
  · intro tracks ht
    rw [appleMatch, runLoop_missedTracks]
    simp only [LoopState.init, List.nil_append]
    exact List.mem_filter.mpr ⟨ht, by simp [appleStep, appleQuery, h]⟩

/-- Witness for C10 at a concrete artistless track. -/
theorem C10_empty_artists_policy_witness :
    appleStep (fun _ => some "y") ⟨"a", "b", []⟩ = (0, none)
    ∧ (⟨"a", "b", []⟩ : SourceTrack)
        ∈ (appleMatch (fun _ => some "y") [⟨"a", "b", []⟩]).missedTracks := by
  have h := C10_empty_artists_policy (fun _ => some "y") ⟨"a", "b", []⟩ rfl
  exact ⟨h.1, h.2.1 [⟨"a", "b", []⟩] (List.mem_singleton.mpr rfl)⟩

/-! Concrete environments and worlds used by the witnesses below. -/

/-- A baseline environment: production mode, empty parsed playlists,
always-missing search oracles, successful submission, no write conflict. -/
def envA : Env :=
  { debug := false
    uid := "uid"
    parseApple := fun _ => ⟨"Title", "Creator", none, []⟩
    parseSpotify := fun _ => ⟨"Title", "Creator", none, []⟩
    spSearch := fun _ => none
    amSearch := fun _ => none
    createdPlaylistId := "pid"
    createdPlaylistUrl := "spurl"
    amCreatedPlaylistId := "apid"
    spSubmitOutcome := .success
    amSubmitOutcome := .success
    spSubmitFailAt := 0
    amSubmitFailAt := 0
    saveConflicts := false }

/-- The empty starting world. -/
def emptyWorld : World := ⟨[], 0, [], [], 0, [], []⟩

/-- C9: when the cached short-circuit path of `generate_spotify_playlist`
fires — production mode and a non-expired cache entry for the canonical
url — the world is returned unchanged, so there are no search calls, no
submission calls, no mapping writes, no created-playlist log row, no
cache write, no counter increment and no progress reports, and the result
carries only the cached playlist url and the two service names, with the
`number_of_tracks` and `missed_tracks` keys absent. -/
theorem C9_cached_path_frame (env : Env) (url : String) (w : World)
    (v : String) (hd : env.debug = false)
    (hc : cacheGet w.cache (strip_qs url) = some v) :
    generate_spotify_playlist env url w
      = (.ok ⟨some v, none, none, "apple-music", "spotify"⟩, w) := by
  rw [generate_spotify_playlist]
  simp [hd, hc]

/-- Witness for C9 at a concrete cached url. -/
theorem C9_cached_path_frame_witness :
    generate_spotify_playlist envA "amurl"
        { emptyWorld with cache := [("amurl", "u1")] }
      = (.ok ⟨some "u1", none, none, "apple-music", "spotify"⟩,
         { emptyWorld with cache := [("amurl", "u1")] }) :=
  C9_cached_path_frame envA "amurl" { emptyWorld with cache := [("amurl", "u1")] }
    "u1" rfl (by rfl)

/-- C6: mapping persistence is best-effort — an integrity-constraint
violation during the batch write of mapping rows is swallowed rather than
raised, so the conversion terminates the same way with the same result
dictionary whether or not the write conflicted, in both directions. -/
theorem C6_mapping_write_best_effort (env : Env) (url : String) (w : World) :
    (generate_spotify_playlist { env with saveConflicts := true } url w).1
        = (generate_spotify_playlist { env with saveConflicts := false } url w).1
    ∧ (generate_applemusic_playlist { env with saveConflicts := true } url w).1
        = (generate_applemusic_playlist { env with saveConflicts := false } url w).1 := by
  constructor
  · rw [generate_spotify_playlist, generate_spotify_playlist,
        generate_spotify_playlist_full, generate_spotify_playlist_full]
    cases hd : env.debug <;>
      cases hcg : cacheGet w.cache (strip_qs url) <;>
        cases hs : env.spSubmitOutcome <;>
          simp [hd, hcg, hs, save_or_update_tracks]
  · rw [generate_applemusic_playlist, generate_applemusic_playlist]
    cases hs : env.amSubmitOutcome with
    | success => simp [hs, save_or_update_tracks]
    | httpError status =>
      by_cases h5 : 500 ≤ status <;> simp [hs, h5, save_or_update_tracks]
    | exn => simp [hs, save_or_update_tracks]

/-- C5: a failing or empty catalog search is a per-track miss that never
aborts the conversion — for every search oracle (including one that always
raises), once the matching loop is reached and batch submission succeeds,
both tasks return a result dictionary; and under an oracle where every
track misses, `missed_tracks` is the entire input, so an empty destination
playlist is a valid outcome rather than an error. -/
theorem C5_search_miss_never_fatal (env : Env) (url : String) (w : World)
    (hsp : env.spSubmitOutcome = .success)
    (ham : env.amSubmitOutcome = .success) :
    (∃ w2, generate_spotify_playlist_full env url w
        = (.ok ⟨some env.createdPlaylistUrl,
                some (env.parseApple url).tracks.length,
                some (spotifyMatch env.spSearch (env.parseApple url).tracks).missedTracks,
                "apple-music", "spotify"⟩, w2))
    ∧ (∃ w2, generate_applemusic_playlist env url w
        = (.ok ⟨none, some (env.parseSpotify (strip_qs url)).tracks.length,
                some (appleMatch env.amSearch (env.parseSpotify (strip_qs url)).tracks).missedTracks,
                "spotify", "apple-music"⟩, w2))
    ∧ ((∀ t ∈ (env.parseApple url).tracks, env.spSearch (spotifyQuery t) = none) →
        (spotifyMatch env.spSearch (env.parseApple url).tracks).missedTracks
          = (env.parseApple url).tracks)
    ∧ ((∀ t ∈ (env.parseSpotify (strip_qs url)).tracks,
          (appleStep env.amSearch t).2 = none) →
        (appleMatch env.amSearch (env.parseSpotify (strip_qs url)).tracks).missedTracks
          = (env.parseSpotify (strip_qs url)).tracks) := by
  refine ⟨?_, ?_, ?_, ?_⟩
  · rw [generate_spotify_playlist_full, hsp]
    exact ⟨_, rfl⟩
  · rw [generate_applemusic_playlist, ham]
    exact ⟨_, rfl⟩
  · intro hmiss
    rw [spotifyMatch, runLoop_missedTracks]
    simp only [LoopState.init, List.nil_append]
    rw [List.filter_eq_self]
    intro t ht
    simp [spotifyStep, hmiss t ht]
  · intro hmiss
    rw [appleMatch, runLoop_missedTracks]
    simp only [LoopState.init, List.nil_append]
    rw [List.filter_eq_self]
    intro t ht
    simp [hmiss t ht]

/-- Witness for C5 at a concrete environment whose sole track misses. -/
theorem C5_search_miss_never_fatal_witness :
    (∃ w2, generate_spotify_playlist_full envA "u" emptyWorld
        = (.ok ⟨some "spurl", some 0, some [], "apple-music", "spotify"⟩, w2))
    ∧ (∃ w2, generate_applemusic_playlist envA "u" emptyWorld
        = (.ok ⟨none, some 0, some [], "spotify", "apple-music"⟩, w2))
    ∧ ((∀ t ∈ (envA.parseApple "u").tracks, envA.spSearch (spotifyQuery t) = none) →
        (spotifyMatch envA.spSearch (envA.parseApple "u").tracks).missedTracks
          = (envA.parseApple "u").tracks)
    ∧ ((∀ t ∈ (envA.parseSpotify (strip_qs "u")).tracks,
          (appleStep envA.amSearch t).2 = none) →
        (appleMatch envA.amSearch (envA.parseSpotify (strip_qs "u")).tracks).missedTracks
          = (envA.parseSpotify (strip_qs "u")).tracks) :=
  C5_search_miss_never_fatal envA "u" emptyWorld rfl rfl

theorem cacheGet_cacheSet (c : List (String × String)) (k v : String) :
    cacheGet (cacheSet c k v) k = some v := by
  simp [cacheGet, cacheSet]

/-- C3, amended: cache idempotence holds for the apple-music-to-spotify
direction only — in production mode, after any conversion by
`generate_spotify_playlist` returns a result, a second conversion of the
same url within the TTL window short-circuits on the cache entry: it
returns the same `playlist_url` and leaves the world untouched, so it
performs zero search-adapter calls.  The spotify-to-apple-music task never
consults the cache at all (see the counterexample). -/
theorem C3_cache_idempotence (env : Env) (url : String) (w w1 : World)
    (r1 : TaskResult)
    (hd : env.debug = false)
    (h1 : generate_spotify_playlist env url w = (.ok r1, w1)) :
    generate_spotify_playlist env url w1
      = (.ok ⟨r1.playlist_url, none, none, "apple-music", "spotify"⟩, w1) := by
  rw [generate_spotify_playlist] at h1 ⊢
  rw [hd] at h1 ⊢
  simp only [Bool.false_eq_true, if_false] at h1 ⊢
  cases hcg : cacheGet w.cache (strip_qs url) with
  | some v =>
    rw [hcg] at h1
    injection h1 with ha hb
    injection ha with hr
    subst hb
    subst hr
    rw [hcg]
  | none =>
    rw [hcg] at h1
    rw [generate_spotify_playlist_full] at h1
    cases hs : env.spSubmitOutcome with
    | success =>
      rw [hs] at h1
      simp only at h1
      injection h1 with ha hb
      injection ha with hr
      subst hb
      subst hr
      simp only [cacheGet_cacheSet]
    | httpError status =>
      rw [hs] at h1
      simp at h1
    | exn =>
      rw [hs] at h1
      simp at h1

/-- An environment for the spotify-to-apple-music counterexample: one
parsed source track which the destination catalog search resolves. -/
def envC3 : Env :=
  { envA with
      parseSpotify := fun _ => ⟨"T", "C", none, [⟨"s1", "Song", ["Artist"]⟩]⟩
      amSearch := fun _ => some "am1" }

/-- Counterexample to C3 as stated: a spotify-to-apple-music conversion in
production mode whose canonical url has a non-expired cache entry does not
short-circuit — the task never reads the cache, performs one search call,
and returns a result whose playlist url is `None`, not the cached value. -/
theorem C3_counterexample :
    envC3.debug = false
    ∧ cacheGet [("u", "cached")] (strip_qs "u") = some "cached"
    ∧ (generate_applemusic_playlist envC3 "u"
        { emptyWorld with cache := [("u", "cached")] }).2.searchCalls = 1
    ∧ (generate_applemusic_playlist envC3 "u"
        { emptyWorld with cache := [("u", "cached")] }).1
        = .ok ⟨none, some 1, some [], "spotify", "apple-music"⟩ :=
  ⟨rfl, by rfl, by rfl, by rfl⟩

/-- The world after a first apple-music-to-spotify conversion of `"u"`
from the empty world under `envA`. -/
def worldAfterFirstRun : World :=
  { cache := [("u", "spurl")], counter := 1, savedTracks := [],
    playlistLog := [⟨"Title", none, "spurl", "u", "Creator"⟩],
    searchCalls := 0, progressReports := [],
    submitCalls := [.create [], .append []] }

/-- Witness for C3: a concrete first conversion followed by the
short-circuited second conversion. -/
theorem C3_cache_idempotence_witness :
    generate_spotify_playlist envA "u" worldAfterFirstRun
      = (.ok ⟨some "spurl", none, none, "apple-music", "spotify"⟩,
         worldAfterFirstRun) :=
  C3_cache_idempotence envA "u" emptyWorld worldAfterFirstRun
    ⟨some "spurl", some 0, some [], "apple-music", "spotify"⟩ rfl (by rfl)

/-- C4, amended: the retry policy is directional.  In the
spotify-to-apple-music task an HTTP error with a 5xx status during batch
submission persists the already-matched mapping rows and then signals a
retry, while a non-5xx HTTP status or any other exception propagates as
fatal with nothing persisted; a retry arises only from a 5xx during batch
submission.  In the apple-music-to-spotify task batch submission is not
wrapped at all: every submission error — 5xx included — propagates as
fatal with nothing persisted, and that task never signals a retry. -/
theorem C4_retry_policy (env : Env) (url : String) (w : World) (s : Nat) :
    (env.amSubmitOutcome = .httpError s → 500 ≤ s → env.saveConflicts = false →
      ∃ w2, generate_applemusic_playlist env url w = (.retry, w2)
        ∧ w2.savedTracks = w.savedTracks
            ++ (appleMatch env.amSearch
                  (env.parseSpotify (strip_qs url)).tracks).tracksToSave)
    ∧ (env.amSubmitOutcome = .httpError s → s < 500 →
      ∃ w2, generate_applemusic_playlist env url w = (.fatal, w2)
        ∧ w2.savedTracks = w.savedTracks)
    ∧ (env.amSubmitOutcome = .exn →
      ∃ w2, generate_applemusic_playlist env url w = (.fatal, w2)
        ∧ w2.savedTracks = w.savedTracks)
    ∧ (env.spSubmitOutcome ≠ .success →
      ∃ w2, generate_spotify_playlist_full env url w = (.fatal, w2)
        ∧ w2.savedTracks = w.savedTracks)
    ∧ ((generate_applemusic_playlist env url w).1 = .retry →
        ∃ s2, env.amSubmitOutcome = .httpError s2 ∧ 500 ≤ s2)
    ∧ (generate_spotify_playlist env url w).1 ≠ .retry := by
  refine ⟨?_, ?_, ?_, ?_, ?_, ?_⟩
  · intro ham h5 hconf
    rw [generate_applemusic_playlist, ham]
    simp only [if_pos h5, save_or_update_tracks, hconf, Bool.false_eq_true,
               if_false]
    by_cases hlen : (appleMatch env.amSearch
        (env.parseSpotify (strip_qs url)).tracks).tracksToSave.length > 0
    · simp only [if_pos hlen]
      exact ⟨_, rfl, by simp⟩
    · simp only [if_neg hlen]
      refine ⟨_, rfl, ?_⟩
      have he : (appleMatch env.amSearch
          (env.parseSpotify (strip_qs url)).tracks).tracksToSave = [] :=
        List.length_eq_zero.mp (by omega)
      simp [he]
  · intro ham hlt
    rw [generate_applemusic_playlist, ham]
    simp only [if_neg (by omega : ¬ 500 ≤ s)]
    exact ⟨_, rfl, by simp⟩
  · intro ham
    rw [generate_applemusic_playlist, ham]
    exact ⟨_, rfl, by simp⟩
  · intro hne
    rw [generate_spotify_playlist_full]
    cases hs : env.spSubmitOutcome with
    | success => exact absurd hs hne
    | httpError s2 => exact ⟨_, rfl, by simp⟩
    | exn => exact ⟨_, rfl, by simp⟩
  · intro hret
    rw [generate_applemusic_playlist] at hret
    cases hs : env.amSubmitOutcome with
    | success => rw [hs] at hret; simp at hret
    | httpError s2 =>
      rw [hs] at hret
      by_cases h5 : 500 ≤ s2
      · exact ⟨s2, rfl, h5⟩
      · simp only [if_neg h5] at hret
        simp at hret
    | exn => rw [hs] at hret; simp at hret
  · intro hret
    rw [generate_spotify_playlist] at hret
    cases hd : env.debug
    · rw [hd] at hret
      simp only [Bool.false_eq_true, if_false] at hret
      cases hcg : cacheGet w.cache (strip_qs url) with
      | some v => rw [hcg] at hret; simp at hret
      | none =>
        rw [hcg, generate_spotify_playlist_full] at hret
        cases hs : env.spSubmitOutcome <;> rw [hs] at hret <;> simp at hret
    · rw [hd] at hret
      simp only [if_true] at hret
      rw [generate_spotify_playlist_full] at hret
      cases hs : env.spSubmitOutcome <;> rw [hs] at hret <;> simp at hret

/-- An environment whose apple-music batch submission fails with a 503
after its single track matched. -/
def envRetry : Env :=
  { envA with
      amSubmitOutcome := .httpError 503
      parseSpotify := fun _ => ⟨"T", "C", none, [⟨"s1", "Song", ["Artist"]⟩]⟩
      amSearch := fun _ => some "am1" }

/-- An environment whose apple-music batch submission fails with a 404. -/
def envFatal : Env := { envA with amSubmitOutcome := .httpError 404 }

/-- An environment whose apple-music batch submission raises a non-HTTP
exception. -/
def envExn : Env := { envA with amSubmitOutcome := .exn }

/-- An environment whose spotify batch submission fails with a 503 after
its single track matched. -/
def envC4 : Env :=
  { envA with
      spSubmitOutcome := .httpError 503
      parseApple := fun _ => ⟨"T", "C", none, [⟨"a1", "Song", ["Artist"]⟩]⟩
      spSearch := fun _ => some "sp1" }

/-- Counterexample to C4 as stated: an apple-music-to-spotify conversion
that observes a 503 during batch submission does not fail with a
retryable error and does not first persist the matched mapping row — it
fails fatally with nothing persisted. -/
theorem C4_counterexample :
    (generate_spotify_playlist envC4 "u" emptyWorld).1 = .fatal
    ∧ (generate_spotify_playlist envC4 "u" emptyWorld).1 ≠ .retry
    ∧ (generate_spotify_playlist envC4 "u" emptyWorld).2.savedTracks = [] := by
  refine ⟨by rfl, ?_, by rfl⟩
  intro hcon
  rw [show (generate_spotify_playlist envC4 "u" emptyWorld).1 = .fatal
        from by rfl] at hcon
  exact Outcome.noConfusion hcon

/-- Witness for C4 at the four concrete environments. -/
theorem C4_retry_policy_witness :
    (∃ w2, generate_applemusic_playlist envRetry "u" emptyWorld = (.retry, w2)
        ∧ w2.savedTracks = [] ++ (appleMatch envRetry.amSearch
            (envRetry.parseSpotify (strip_qs "u")).tracks).tracksToSave)
    ∧ (∃ w2, generate_applemusic_playlist envFatal "u" emptyWorld = (.fatal, w2)
        ∧ w2.savedTracks = [])
    ∧ (∃ w2, generate_applemusic_playlist envExn "u" emptyWorld = (.fatal, w2)
        ∧ w2.savedTracks = [])
    ∧ (∃ w2, generate_spotify_playlist_full envC4 "u" emptyWorld = (.fatal, w2)
        ∧ w2.savedTracks = []) :=
  ⟨(C4_retry_policy envRetry "u" emptyWorld 503).1 rfl (by omega) rfl,
   (C4_retry_policy envFatal "u" emptyWorld 404).2.1 rfl (by omega),
   (C4_retry_policy envExn "u" emptyWorld 0).2.2.1 rfl,
   (C4_retry_policy envC4 "u" emptyWorld 0).2.2.2.1 (by decide)⟩
